import Mathlib

/-!
Shallow embedding of `src/src/components/BookingForm.tsx` (the booking form
component of iamshubh29/Payman-Project) and proofs about its submit handler.

The component's effectful submit handler `handleSubmit` is modelled as a pure
function from its inputs (form data, mentor, the outcome of the external
payment call, the balance string returned by the external wallet service, the
stored session list, and the environment-supplied strings: generated session
id, date-fns formatted date, creation timestamp) to a `SubmitResult` recording
the observable effects: the stored session list afterwards, the inline error
message, the toasts raised, how many payment calls were made, whether the
form was closed (success callbacks fired), and the final submitting flag.

JavaScript numbers are modelled as exact rationals; `parseFloat` returning
`NaN` is modelled as `Option.none`, and every JS comparison against `NaN`
is `false`, which the `none` branch of `reconcileMatches` reflects.
-/

namespace BookingForm

/-- The `Mentor` fields used by the component (`mentor.id`, `mentor.name`,
`mentor.hourlyRate`). -/
structure Mentor where
  id : String
  name : String
  hourlyRate : ℚ
deriving Repr, DecidableEq

/-- The `BookingFormData` state (lines 21-29); `sessionDate` is kept outside
the model and enters only through the date-fns formatted string passed to
`handleSubmit`, since date formatting is an external collaborator. -/
structure BookingFormData where
  mentorId : String
  sessionTime : String
  sessionDuration : ℚ
  topic : String
  goals : String
  paymentAmount : ℚ
deriving Repr, DecidableEq

/-- The session record persisted to localStorage (lines 120-132). -/
structure SessionRecord where
  id : String
  mentorId : String
  mentorName : String
  date : String
  time : String
  duration : ℚ
  topic : String
  goals : String
  amount : ℚ
  status : String
  createdAt : String
deriving Repr, DecidableEq

/-- A toast notification; `destructive` is the `variant: "destructive"` flag. -/
structure Toast where
  title : String
  description : String
  destructive : Bool
deriving Repr, DecidableEq

/-- Outcome of the awaited `makePaymentFromCart` call: either a result object
`{success, message}` or a thrown exception.  A thrown `Error` carries
`some message`; a thrown non-`Error` value carries `none` (the component then
substitutes a generic message, line 145). -/
inductive PaymentOutcome where
  | result (success : Bool) (message : String)
  | thrown (message : Option String)
deriving Repr, DecidableEq

/-- The observable effects of one run of `handleSubmit`. -/
structure SubmitResult where
  sessions : List SessionRecord
  error : Option String
  toasts : List Toast
  paymentCalls : Nat
  closed : Bool
  isSubmitting : Bool
deriving Repr, DecidableEq

/-- JavaScript `String.prototype.trim`, used in the validation gate (line 74):
remove leading and trailing whitespace. -/
def jsTrim (s : String) : String :=
  String.mk (((s.toList.dropWhile Char.isWhitespace).reverse.dropWhile
    Char.isWhitespace).reverse)

/-- `currentBalance.replace(/[^0-9.]/g, '')` (line 93): keep only ASCII
digits and dots. -/
def stripNonNumeric (s : String) : String :=
  String.mk (s.toList.filter (fun c => c.isDigit || c = '.'))

/-- Value of a list of decimal digit characters. -/
def digitsVal (cs : List Char) : ℕ :=
  cs.foldl (fun a c => a * 10 + (c.toNat - 48)) 0

/-- Digit-level core of JavaScript `parseFloat` restricted to strings of
digits and dots (all that `stripNonNumeric` can produce): a leading run of
digits, then an optional dot followed by a run of digits; `NaN` (modelled
`none`) when no digit is consumed.  Returns the integer-part value, the
fraction-part value, and the number of fraction digits. -/
def parseFloatParts (s : String) : Option (ℕ × ℕ × ℕ) :=
  let cs := s.toList
  let ip := cs.takeWhile (fun c => c.isDigit)
  let rest := cs.dropWhile (fun c => c.isDigit)
  let fp : List Char :=
    match rest with
    | '.' :: r => r.takeWhile (fun c => c.isDigit)
    | _ => []
  if ip.isEmpty && fp.isEmpty then none
  else some (digitsVal ip, digitsVal fp, fp.length)

/-- JavaScript `parseFloat` on digit/dot strings, as an exact rational:
integer part plus fraction part over the matching power of ten. -/
def parseFloatQ (s : String) : Option ℚ :=
  (parseFloatParts s).map (fun p => (p.1 : ℚ) + (p.2.1 : ℚ) / (10 : ℚ) ^ p.2.2)

/-- Line 93: `parseFloat(currentBalance.replace(/[^0-9.]/g, ''))`. -/
def parseBalance (s : String) : Option ℚ :=
  parseFloatQ (stripNonNumeric s)

/-- Lines 93-96, the reconciliation branch condition:
`previousBalance` is the parsed fetched balance, `expectedBalance` is
`previousBalance - formData.paymentAmount`, and the condition is
`Math.abs(previousBalance - expectedBalance) < 0.01`.  When parsing produced
`NaN` (`none`), every arithmetic result is `NaN` and the `<` comparison is
`false`. -/
def reconcileMatches (paymentAmount : ℚ) (parsed : Option ℚ) : Bool :=
  match parsed with
  | none => false
  | some previousBalance =>
    let expectedBalance := previousBalance - paymentAmount
    decide (|previousBalance - expectedBalance| < 1/100)

/-- Toast of lines 76-80. -/
def validationToast : Toast :=
  { title := "Validation Error"
    description := "Please fill in all required fields"
    destructive := true }

/-- Toast of lines 98-101 and 113-116. -/
def paymentSuccessToast : Toast :=
  { title := "Payment Successful"
    description := "Your payment has been processed successfully."
    destructive := false }

/-- Toast of lines 105-109. -/
def paymentFailedToast (msg : String) : Toast :=
  { title := "Payment Failed", description := msg, destructive := true }

/-- Toast of lines 146-150. -/
def errorToast (msg : String) : Toast :=
  { title := "Error", description := msg, destructive := true }

/-- The `sessionDetails` object (lines 120-132); `sessionId`, `formattedDate`
and `createdAt` stand for the `Date.now()`-generated id, the
date-fns-formatted session date, and the ISO creation timestamp. -/
def mkSessionDetails (m : Mentor) (fd : BookingFormData)
    (sessionId formattedDate createdAt : String) : SessionRecord :=
  { id := sessionId
    mentorId := m.id
    mentorName := m.name
    date := formattedDate
    time := fd.sessionTime
    duration := fd.sessionDuration
    topic := fd.topic
    goals := fd.goals
    amount := fd.paymentAmount
    status := "confirmed"
    createdAt := createdAt }

/-- The submit handler (lines 68-154) as a pure function of its inputs.
`stored` is the parsed `bookedSessions` list read from localStorage;
`balanceStr` is the string an awaited `getWalletBalance()` would return.
Every path runs the `finally` block, so `isSubmitting` ends `false`. -/
def handleSubmit (m : Mentor) (fd : BookingFormData) (outcome : PaymentOutcome)
    (balanceStr : String) (stored : List SessionRecord)
    (sessionId formattedDate createdAt : String) : SubmitResult :=
  if jsTrim fd.topic = "" ∨ jsTrim fd.goals = "" ∨ fd.sessionTime = "" then
    { sessions := stored
      error := some "Please fill in all required fields"
      toasts := [validationToast]
      paymentCalls := 0
      closed := false
      isSubmitting := false }
  else
    match outcome with
    | .thrown msg =>
      let t := msg.getD "An error occurred during payment"
      { sessions := stored
        error := some t
        toasts := [errorToast t]
        paymentCalls := 1
        closed := false
        isSubmitting := false }
    | .result success message =>
      if success then
        { sessions := stored ++ [mkSessionDetails m fd sessionId formattedDate createdAt]
          error := none
          toasts := [paymentSuccessToast]
          paymentCalls := 1
          closed := true
          isSubmitting := false }
      else if reconcileMatches fd.paymentAmount (parseBalance balanceStr) then
        { sessions := stored ++ [mkSessionDetails m fd sessionId formattedDate createdAt]
          error := none
          toasts := [paymentSuccessToast]
          paymentCalls := 1
          closed := true
          isSubmitting := false }
      else
        { sessions := stored
          error := some message
          toasts := [paymentFailedToast message]
          paymentCalls := 1
          closed := false
          isSubmitting := false }

/-- The `useEffect` recomputation of the payment amount (lines 34-42):
`Math.round(hourlyRate * hours * 100) / 100` with `hours = sessionDuration / 60`.
Mathlib's `round` rounds halves up, exactly as `Math.round` does. -/
def updatePaymentAmount (hourlyRate sessionDuration : ℚ) : ℚ :=
  let hours := sessionDuration / 60
  ((round (hourlyRate * hours * 100) : ℤ) : ℚ) / 100

/-- Specification-side definition, following the spec's words "rounded to
2 decimals" / "round(R × D/60, 2)": round `x` to two decimal places
(halves up, as `Math.round` does). -/
def roundTo2Spec (x : ℚ) : ℚ :=
  ((round (x * 100) : ℤ) : ℚ) / 100

/-- Concrete mentor used by the witness theorems. -/
def wMentor : Mentor :=
  { id := "m1", name := "Alice", hourlyRate := 75 }

/-- Concrete valid form state used by the witness theorems. -/
def wForm : BookingFormData :=
  { mentorId := "m1", sessionTime := "10:00", sessionDuration := 60
    topic := "Career", goals := "Grow", paymentAmount := 75 }

/-- On a parsed (non-`NaN`) balance the reconciliation condition is
`|paymentAmount| < 0.01`: the balance cancels out of the comparison. -/
theorem reconcileMatches_some (a b : ℚ) :
    reconcileMatches a (some b) = decide (|a| < 1/100) := by
  show decide (|b - (b - a)| < 1/100) = decide (|a| < 1/100)
  rw [sub_sub_cancel]

theorem parseBalance_dollars : parseBalance "$500.00" = some 500 := by
  have hp : parseFloatParts (stripNonNumeric "$500.00") = some (500, 0, 2) := by
    decide
  simp [parseBalance, parseFloatQ, hp]

theorem parseBalance_decimal : parseBalance "1.25" = some (5/4) := by
  have hp : parseFloatParts (stripNonNumeric "1.25") = some (1, 25, 2) := by
    decide
  simp [parseBalance, parseFloatQ, hp]
  norm_num


/-- C1: when the payment call reports failure, the handler computes the
expected post-payment balance as the parsed balance minus the payment amount,
and takes the success path (success toast) precisely when the absolute
difference between that expected balance and the fetched, parsed current
balance is below 0.01; otherwise it surfaces the reported error message. -/
theorem c1_reconciliation_success_iff
    (m : Mentor) (fd : BookingFormData) (msg balanceStr : String)
    (stored : List SessionRecord) (sid fdate cat : String) (b : ℚ)
    (hv : ¬(jsTrim fd.topic = "" ∨ jsTrim fd.goals = "" ∨ fd.sessionTime = ""))
    (hb : parseBalance balanceStr = some b) :
    ((handleSubmit m fd (.result false msg) balanceStr stored sid fdate cat).toasts
        = [paymentSuccessToast]
      ↔ |(b - fd.paymentAmount) - b| < 1/100) ∧
    (¬ |(b - fd.paymentAmount) - b| < 1/100 →
      (handleSubmit m fd (.result false msg) balanceStr stored sid fdate cat).error
          = some msg ∧
      (handleSubmit m fd (.result false msg) balanceStr stored sid fdate cat).toasts
          = [paymentFailedToast msg]) := by
  have harith : |(b - fd.paymentAmount) - b| = |fd.paymentAmount| := by
    rw [show b - fd.paymentAmount - b = -fd.paymentAmount from by ring, abs_neg]
  rw [harith]
  by_cases h : |fd.paymentAmount| < 1/100
  · have h2 : |fd.paymentAmount| < (100 : ℚ)⁻¹ := by rwa [one_div] at h
    refine ⟨?_, fun hn => absurd h hn⟩
    simp [handleSubmit, if_neg hv, hb, reconcileMatches_some, h2, h]
  · have h2 : ¬ |fd.paymentAmount| < (100 : ℚ)⁻¹ := by rwa [one_div] at h
    refine ⟨?_, fun _ => ?_⟩
    · simp [handleSubmit, if_neg hv, hb, reconcileMatches_some, h2, h,
        paymentFailedToast, paymentSuccessToast]
    · simp [handleSubmit, if_neg hv, hb, reconcileMatches_some, h2]

/-- C1 witness at concrete inputs. -/
theorem c1_witness :
    (¬(jsTrim wForm.topic = "" ∨ jsTrim wForm.goals = "" ∨ wForm.sessionTime = "")) ∧
    parseBalance "$500.00" = some 500 ∧
    (((handleSubmit wMentor wForm (.result false "Declined") "$500.00" []
          "s1" "2025-01-01" "t0").toasts = [paymentSuccessToast]
        ↔ |((500 : ℚ) - wForm.paymentAmount) - 500| < 1/100) ∧
      (¬ |((500 : ℚ) - wForm.paymentAmount) - 500| < 1/100 →
        (handleSubmit wMentor wForm (.result false "Declined") "$500.00" []
            "s1" "2025-01-01" "t0").error = some "Declined" ∧
        (handleSubmit wMentor wForm (.result false "Declined") "$500.00" []
            "s1" "2025-01-01" "t0").toasts = [paymentFailedToast "Declined"])) := by
  have hv : ¬(jsTrim wForm.topic = "" ∨ jsTrim wForm.goals = "" ∨ wForm.sessionTime = "") := by
    decide
  exact ⟨hv, parseBalance_dollars,
    c1_reconciliation_success_iff wMentor wForm "Declined" "$500.00" []
      "s1" "2025-01-01" "t0" 500 hv parseBalance_dollars⟩


/-- C2 counterexample: the claim says the reconciliation condition is true for
every payment amount and fetched balance; at amount 100 and balance string
"500" it is false, and the handler classifies the reported failure as a
genuine failure. -/
theorem c2_counterexample :
    reconcileMatches 100 (parseBalance "500") = false ∧
    (handleSubmit ⟨"m1", "Alice", 100⟩
        ⟨"m1", "10:00", 60, "Career", "Grow", 100⟩
        (.result false "Insufficient funds") "500" [] "s1" "2025-01-01" "t0").error
      = some "Insufficient funds" := by
  have hp : parseBalance "500" = some 500 := by
    have h : parseFloatParts (stripNonNumeric "500") = some (500, 0, 0) := by decide
    simp [parseBalance, parseFloatQ, h]
  have hr : reconcileMatches 100 (parseBalance "500") = false := by
    rw [hp, reconcileMatches_some, decide_eq_false_iff_not]
    norm_num
  have h1 : ¬ jsTrim "Career" = "" := by decide
  have h2 : ¬ jsTrim "Grow" = "" := by decide
  exact ⟨hr, by simp [handleSubmit, h1, h2, hr]⟩

/-- C2 (amended): for a balance string that parses to a finite value, the
reconciliation branch condition evaluates to true exactly when the absolute
payment amount is below 0.01 — the parsed balance cancels out — so for any
ordinary amount (at least 0.01) every reported payment failure is classified
as a genuine failure by this branch, not as a success. -/
theorem c2_amended_condition_iff_small_amount (amount b : ℚ) :
    (reconcileMatches amount (some b) = true ↔ |amount| < 1/100) := by
  rw [reconcileMatches_some, decide_eq_true_iff]

/-- C3: when payment reports failure but the reconciliation comparison holds,
the handler takes the success path: it raises the success toast and appends
the session record, and its whole observable result coincides with that of a
reported success (for any reported-success message and balance string). -/
theorem c3_reconciled_failure_takes_success_path
    (m : Mentor) (fd : BookingFormData) (msg msg2 balanceStr bs2 : String)
    (stored : List SessionRecord) (sid fdate cat : String)
    (hv : ¬(jsTrim fd.topic = "" ∨ jsTrim fd.goals = "" ∨ fd.sessionTime = ""))
    (hr : reconcileMatches fd.paymentAmount (parseBalance balanceStr) = true) :
    (handleSubmit m fd (.result false msg) balanceStr stored sid fdate cat).toasts
      = [paymentSuccessToast] ∧
    (handleSubmit m fd (.result false msg) balanceStr stored sid fdate cat).sessions
      = stored ++ [mkSessionDetails m fd sid fdate cat] ∧
    handleSubmit m fd (.result false msg) balanceStr stored sid fdate cat
      = handleSubmit m fd (.result true msg2) bs2 stored sid fdate cat := by
  refine ⟨?_, ?_, ?_⟩ <;> simp [handleSubmit, if_neg hv, hr]

/-- C3 witness at concrete inputs: payment amount 0.005 (below the tolerance)
makes the reconciliation condition hold. -/
theorem c3_witness :
    (¬(jsTrim "Career" = "" ∨ jsTrim "Grow" = "" ∨ ("10:00" : String) = "")) ∧
    reconcileMatches (1/200) (parseBalance "$500.00") = true ∧
    ((handleSubmit wMentor ⟨"m1", "10:00", 60, "Career", "Grow", 1/200⟩
        (.result false "Declined") "$500.00" [] "s1" "2025-01-01" "t0").toasts
      = [paymentSuccessToast] ∧
    (handleSubmit wMentor ⟨"m1", "10:00", 60, "Career", "Grow", 1/200⟩
        (.result false "Declined") "$500.00" [] "s1" "2025-01-01" "t0").sessions
      = [] ++ [mkSessionDetails wMentor ⟨"m1", "10:00", 60, "Career", "Grow", 1/200⟩
          "s1" "2025-01-01" "t0"] ∧
    handleSubmit wMentor ⟨"m1", "10:00", 60, "Career", "Grow", 1/200⟩
        (.result false "Declined") "$500.00" [] "s1" "2025-01-01" "t0"
      = handleSubmit wMentor ⟨"m1", "10:00", 60, "Career", "Grow", 1/200⟩
        (.result true "ok") "x" [] "s1" "2025-01-01" "t0") := by
  have hv : ¬(jsTrim "Career" = "" ∨ jsTrim "Grow" = "" ∨ ("10:00" : String) = "") := by
    decide
  have hr : reconcileMatches (1/200) (parseBalance "$500.00") = true := by
    rw [parseBalance_dollars, reconcileMatches_some, decide_eq_true_iff,
      abs_of_nonneg (by norm_num : (0 : ℚ) ≤ 1/200)]
    norm_num
  exact ⟨hv, hr,
    c3_reconciled_failure_takes_success_path wMentor
      ⟨"m1", "10:00", 60, "Career", "Grow", 1/200⟩ "Declined" "ok" "$500.00" "x"
      [] "s1" "2025-01-01" "t0" hv hr⟩


/-- C4: for every hourly rate R and every supported session duration D in
{30, 60, 90, 120} minutes, the payment amount recomputed on duration change
equals round(R × D/60, 2), i.e. R × D/60 rounded to two decimal places. -/
theorem c4_payment_amount_formula (R D : ℚ)
    (hD : D = 30 ∨ D = 60 ∨ D = 90 ∨ D = 120) :
    updatePaymentAmount R D = roundTo2Spec (R * D / 60) := by
  simp only [updatePaymentAmount, roundTo2Spec]
  rw [show R * (D / 60) * 100 = R * D / 60 * 100 from by ring]

/-- C4 witness at rate 75 and duration 90. -/
theorem c4_witness :
    ((90 : ℚ) = 30 ∨ (90 : ℚ) = 60 ∨ (90 : ℚ) = 90 ∨ (90 : ℚ) = 120) ∧
    updatePaymentAmount 75 90 = roundTo2Spec (75 * 90 / 60) :=
  ⟨Or.inr (Or.inr (Or.inl rfl)),
    c4_payment_amount_formula 75 90 (Or.inr (Or.inr (Or.inl rfl)))⟩

/-- C5: if the topic or goals are empty after trimming or no time slot is
selected, submission is blocked: the validation message is surfaced, no
payment call is made, and no session record is appended. -/
theorem c5_validation_blocks
    (m : Mentor) (fd : BookingFormData) (outcome : PaymentOutcome)
    (balanceStr : String) (stored : List SessionRecord) (sid fdate cat : String)
    (hv : jsTrim fd.topic = "" ∨ jsTrim fd.goals = "" ∨ fd.sessionTime = "") :
    (handleSubmit m fd outcome balanceStr stored sid fdate cat).error
        = some "Please fill in all required fields" ∧
    (handleSubmit m fd outcome balanceStr stored sid fdate cat).toasts
        = [validationToast] ∧
    (handleSubmit m fd outcome balanceStr stored sid fdate cat).paymentCalls = 0 ∧
    (handleSubmit m fd outcome balanceStr stored sid fdate cat).sessions = stored := by
  refine ⟨?_, ?_, ?_, ?_⟩ <;> (unfold handleSubmit; rw [if_pos hv])

/-- C5 witness: a topic that is whitespace only. -/
theorem c5_witness :
    (jsTrim "   " = "" ∨ jsTrim "Grow" = "" ∨ ("10:00" : String) = "") ∧
    ((handleSubmit wMentor ⟨"m1", "10:00", 60, "   ", "Grow", 75⟩
        (.result true "ok") "$500.00" [] "s1" "2025-01-01" "t0").error
        = some "Please fill in all required fields" ∧
    (handleSubmit wMentor ⟨"m1", "10:00", 60, "   ", "Grow", 75⟩
        (.result true "ok") "$500.00" [] "s1" "2025-01-01" "t0").toasts
        = [validationToast] ∧
    (handleSubmit wMentor ⟨"m1", "10:00", 60, "   ", "Grow", 75⟩
        (.result true "ok") "$500.00" [] "s1" "2025-01-01" "t0").paymentCalls = 0 ∧
    (handleSubmit wMentor ⟨"m1", "10:00", 60, "   ", "Grow", 75⟩
        (.result true "ok") "$500.00" [] "s1" "2025-01-01" "t0").sessions = []) := by
  have hv : jsTrim "   " = "" ∨ jsTrim "Grow" = "" ∨ ("10:00" : String) = "" := by
    decide
  exact ⟨hv, c5_validation_blocks wMentor ⟨"m1", "10:00", 60, "   ", "Grow", 75⟩
    (.result true "ok") "$500.00" [] "s1" "2025-01-01" "t0" hv⟩

/-- C6: when the payment call reports success, exactly one session record is
appended, with status "confirmed" and the mentor id/name, formatted date,
time, duration, topic, goals, and payment amount from the booking draft. -/
theorem c6_reported_success_appends_confirmed
    (m : Mentor) (fd : BookingFormData) (msg balanceStr : String)
    (stored : List SessionRecord) (sid fdate cat : String)
    (hv : ¬(jsTrim fd.topic = "" ∨ jsTrim fd.goals = "" ∨ fd.sessionTime = "")) :
    (handleSubmit m fd (.result true msg) balanceStr stored sid fdate cat).sessions
      = stored ++ [{ id := sid, mentorId := m.id, mentorName := m.name,
                     date := fdate, time := fd.sessionTime,
                     duration := fd.sessionDuration, topic := fd.topic,
                     goals := fd.goals, amount := fd.paymentAmount,
                     status := "confirmed", createdAt := cat }] := by
  unfold handleSubmit
  rw [if_neg hv]
  rfl

/-- C6 witness at concrete inputs. -/
theorem c6_witness :
    (¬(jsTrim wForm.topic = "" ∨ jsTrim wForm.goals = "" ∨ wForm.sessionTime = "")) ∧
    (handleSubmit wMentor wForm (.result true "ok") "$500.00" [⟨"s0", "m0", "Bob",
        "2024-12-31", "09:00", 30, "Intro", "Meet", 40, "confirmed", "t-1"⟩]
        "s1" "2025-01-01" "t0").sessions
      = [⟨"s0", "m0", "Bob", "2024-12-31", "09:00", 30, "Intro", "Meet", 40,
          "confirmed", "t-1"⟩]
        ++ [{ id := "s1", mentorId := wMentor.id, mentorName := wMentor.name,
              date := "2025-01-01", time := wForm.sessionTime,
              duration := wForm.sessionDuration, topic := wForm.topic,
              goals := wForm.goals, amount := wForm.paymentAmount,
              status := "confirmed", createdAt := "t0" }] := by
  have hv : ¬(jsTrim wForm.topic = "" ∨ jsTrim wForm.goals = "" ∨ wForm.sessionTime = "") := by
    decide
  exact ⟨hv, c6_reported_success_appends_confirmed wMentor wForm "ok" "$500.00"
    [⟨"s0", "m0", "Bob", "2024-12-31", "09:00", 30, "Intro", "Meet", 40,
      "confirmed", "t-1"⟩] "s1" "2025-01-01" "t0" hv⟩

/-- C7: on a failed submission — payment reports failure and the
reconciliation comparison does not match, or the payment call throws — no
session record is appended, the error is surfaced, the form is not closed,
only the one payment call was made (no retry), and the submitting flag ends
reset. -/
theorem c7_failure_paths_no_append
    (m : Mentor) (fd : BookingFormData) (msg balanceStr : String)
    (em : Option String)
    (stored : List SessionRecord) (sid fdate cat : String)
    (hv : ¬(jsTrim fd.topic = "" ∨ jsTrim fd.goals = "" ∨ fd.sessionTime = ""))
    (hr : reconcileMatches fd.paymentAmount (parseBalance balanceStr) = false) :
    ((handleSubmit m fd (.result false msg) balanceStr stored sid fdate cat).sessions
        = stored ∧
      (handleSubmit m fd (.result false msg) balanceStr stored sid fdate cat).error
        = some msg ∧
      (handleSubmit m fd (.result false msg) balanceStr stored sid fdate cat).closed
        = false ∧
      (handleSubmit m fd (.result false msg) balanceStr stored sid fdate cat).isSubmitting
        = false ∧
      (handleSubmit m fd (.result false msg) balanceStr stored sid fdate cat).paymentCalls
        = 1) ∧
    ((handleSubmit m fd (.thrown em) balanceStr stored sid fdate cat).sessions
        = stored ∧
      (handleSubmit m fd (.thrown em) balanceStr stored sid fdate cat).error
        = some (em.getD "An error occurred during payment") ∧
      (handleSubmit m fd (.thrown em) balanceStr stored sid fdate cat).closed = false ∧
      (handleSubmit m fd (.thrown em) balanceStr stored sid fdate cat).isSubmitting
        = false ∧
      (handleSubmit m fd (.thrown em) balanceStr stored sid fdate cat).paymentCalls
        = 1) := by
  constructor
  · refine ⟨?_, ?_, ?_, ?_, ?_⟩ <;> (unfold handleSubmit; rw [if_neg hv]; simp [hr])
  · refine ⟨?_, ?_, ?_, ?_, ?_⟩ <;> (unfold handleSubmit; rw [if_neg hv])

/-- C7 witness: amount 75 against balance string "$500.00" (comparison fails),
and a thrown network error. -/
theorem c7_witness :
    (¬(jsTrim wForm.topic = "" ∨ jsTrim wForm.goals = "" ∨ wForm.sessionTime = "")) ∧
    reconcileMatches wForm.paymentAmount (parseBalance "$500.00") = false ∧
    (((handleSubmit wMentor wForm (.result false "Declined") "$500.00" []
        "s1" "2025-01-01" "t0").sessions = [] ∧
      (handleSubmit wMentor wForm (.result false "Declined") "$500.00" []
        "s1" "2025-01-01" "t0").error = some "Declined" ∧
      (handleSubmit wMentor wForm (.result false "Declined") "$500.00" []
        "s1" "2025-01-01" "t0").closed = false ∧
      (handleSubmit wMentor wForm (.result false "Declined") "$500.00" []
        "s1" "2025-01-01" "t0").isSubmitting = false ∧
      (handleSubmit wMentor wForm (.result false "Declined") "$500.00" []
        "s1" "2025-01-01" "t0").paymentCalls = 1) ∧
    ((handleSubmit wMentor wForm (.thrown (some "Network error")) "$500.00" []
        "s1" "2025-01-01" "t0").sessions = [] ∧
      (handleSubmit wMentor wForm (.thrown (some "Network error")) "$500.00" []
        "s1" "2025-01-01" "t0").error
        = some ((some "Network error").getD "An error occurred during payment") ∧
      (handleSubmit wMentor wForm (.thrown (some "Network error")) "$500.00" []
        "s1" "2025-01-01" "t0").closed = false ∧
      (handleSubmit wMentor wForm (.thrown (some "Network error")) "$500.00" []
        "s1" "2025-01-01" "t0").isSubmitting = false ∧
      (handleSubmit wMentor wForm (.thrown (some "Network error")) "$500.00" []
        "s1" "2025-01-01" "t0").paymentCalls = 1)) := by
  have hv : ¬(jsTrim wForm.topic = "" ∨ jsTrim wForm.goals = "" ∨ wForm.sessionTime = "") := by
    decide
  have hr : reconcileMatches wForm.paymentAmount (parseBalance "$500.00") = false := by
    rw [parseBalance_dollars, reconcileMatches_some, decide_eq_false_iff_not,
      show wForm.paymentAmount = 75 from rfl,
      abs_of_nonneg (by norm_num : (0 : ℚ) ≤ 75)]
    norm_num
  exact ⟨hv, hr, c7_failure_paths_no_append wMentor wForm "Declined" "$500.00"
    (some "Network error") [] "s1" "2025-01-01" "t0" hv hr⟩

/-- C8: the stored session list is append-only: every run of the submit
handler either leaves it unchanged or extends it by exactly one new record at
the end; no stored record is updated or deleted. -/
theorem c8_append_only
    (m : Mentor) (fd : BookingFormData) (outcome : PaymentOutcome)
    (balanceStr : String) (stored : List SessionRecord) (sid fdate cat : String) :
    (handleSubmit m fd outcome balanceStr stored sid fdate cat).sessions = stored ∨
    (handleSubmit m fd outcome balanceStr stored sid fdate cat).sessions
      = stored ++ [mkSessionDetails m fd sid fdate cat] := by
  unfold handleSubmit
  by_cases hv : (jsTrim fd.topic = "" ∨ jsTrim fd.goals = "" ∨ fd.sessionTime = "")
  · rw [if_pos hv]; left; rfl
  · rw [if_neg hv]
    cases outcome with
    | thrown em => left; rfl
    | result s msg =>
      cases s with
      | true => right; rfl
      | false =>
        by_cases hr : reconcileMatches fd.paymentAmount (parseBalance balanceStr) = true
        · simp [hr]
        · simp [hr]

/-- C9: the reconciliation decision is independent of the fetched wallet
balance — any two parseable balance strings give the same handler result —
because for a nonnegative payment amount the comparison reduces to whether
the payment amount itself is below 0.01. -/
theorem c9_balance_independent
    (m : Mentor) (fd : BookingFormData) (msg bs1 bs2 : String)
    (stored : List SessionRecord) (sid fdate cat : String) (b1 b2 : ℚ)
    (h1 : parseBalance bs1 = some b1) (h2 : parseBalance bs2 = some b2) :
    handleSubmit m fd (.result false msg) bs1 stored sid fdate cat
      = handleSubmit m fd (.result false msg) bs2 stored sid fdate cat ∧
    (0 ≤ fd.paymentAmount →
      (reconcileMatches fd.paymentAmount (parseBalance bs1) = true
        ↔ fd.paymentAmount < 1/100)) := by
  constructor
  · unfold handleSubmit
    rw [h1, h2, reconcileMatches_some, reconcileMatches_some]
  · intro h0
    rw [h1, reconcileMatches_some, decide_eq_true_iff, abs_of_nonneg h0]

/-- C9 witness: balance strings "$500.00" and "1.25". -/
theorem c9_witness :
    parseBalance "$500.00" = some 500 ∧
    parseBalance "1.25" = some (5/4) ∧
    (handleSubmit wMentor wForm (.result false "Declined") "$500.00" []
        "s1" "2025-01-01" "t0"
      = handleSubmit wMentor wForm (.result false "Declined") "1.25" []
        "s1" "2025-01-01" "t0" ∧
    (0 ≤ wForm.paymentAmount →
      (reconcileMatches wForm.paymentAmount (parseBalance "$500.00") = true
        ↔ wForm.paymentAmount < 1/100))) :=
  ⟨parseBalance_dollars, parseBalance_decimal,
    c9_balance_independent wMentor wForm "Declined" "$500.00" "1.25" []
      "s1" "2025-01-01" "t0" 500 (5/4) parseBalance_dollars parseBalance_decimal⟩

/-- C10: if the balance string yields no parseable number after stripping
non-numeric characters, the reconciliation comparison does not hold, so the
handler takes the genuine-failure branch and surfaces the reported error
message; nothing is appended. -/
theorem c10_unparseable_balance_fails
    (m : Mentor) (fd : BookingFormData) (msg balanceStr : String)
    (stored : List SessionRecord) (sid fdate cat : String)
    (hv : ¬(jsTrim fd.topic = "" ∨ jsTrim fd.goals = "" ∨ fd.sessionTime = ""))
    (hb : parseBalance balanceStr = none) :
    reconcileMatches fd.paymentAmount (parseBalance balanceStr) = false ∧
    (handleSubmit m fd (.result false msg) balanceStr stored sid fdate cat).error
      = some msg ∧
    (handleSubmit m fd (.result false msg) balanceStr stored sid fdate cat).toasts
      = [paymentFailedToast msg] ∧
    (handleSubmit m fd (.result false msg) balanceStr stored sid fdate cat).sessions
      = stored := by
  have hr : reconcileMatches fd.paymentAmount (parseBalance balanceStr) = false := by
    rw [hb]; rfl
  refine ⟨hr, ?_, ?_, ?_⟩ <;> (unfold handleSubmit; rw [if_neg hv]; simp [hr])

/-- C10 witness: balance string "N/A" strips to the empty string and parses
to no value. -/
theorem c10_witness :
    (¬(jsTrim wForm.topic = "" ∨ jsTrim wForm.goals = "" ∨ wForm.sessionTime = "")) ∧
    parseBalance "N/A" = none ∧
    (reconcileMatches wForm.paymentAmount (parseBalance "N/A") = false ∧
    (handleSubmit wMentor wForm (.result false "Declined") "N/A" []
        "s1" "2025-01-01" "t0").error = some "Declined" ∧
    (handleSubmit wMentor wForm (.result false "Declined") "N/A" []
        "s1" "2025-01-01" "t0").toasts = [paymentFailedToast "Declined"] ∧
    (handleSubmit wMentor wForm (.result false "Declined") "N/A" []
        "s1" "2025-01-01" "t0").sessions = []) := by
  have hv : ¬(jsTrim wForm.topic = "" ∨ jsTrim wForm.goals = "" ∨ wForm.sessionTime = "") := by
    decide
  have hb : parseBalance "N/A" = none := by decide
  exact ⟨hv, hb, c10_unparseable_balance_fails wMentor wForm "Declined" "N/A" []
    "s1" "2025-01-01" "t0" hv hb⟩

end BookingForm
